import Mathlib

/-!
Verification of the purplship measurement subsystem, package resolution,
and carrier response parsers, shallowly embedded from
`purplship/core/units.py`, `purplship/core/utils/number.py`, and the
DHL / UPS / Canada Post adapter modules.

Numeric values are modelled as exact rationals; Python's `None` becomes
`Option.none`; code that can raise is modelled in `Except PyErr`.
-/

/-- Kinds of Python runtime errors the embedded code can raise. -/
inductive PyErr where
  | typeError
  | attributeError
  | indexError
  | stopIteration
  | multiParcelNotSupported
  deriving DecidableEq, Repr

/-- Round a rational to the nearest integer, ties to even
(the rounding used by Python's builtin `round`). -/
def rhe (x : ℚ) : ℤ :=
  if x - (⌊x⌋ : ℚ) < 1/2 then ⌊x⌋
  else if 1/2 < x - (⌊x⌋ : ℚ) then ⌊x⌋ + 1
  else if 2 ∣ ⌊x⌋ then ⌊x⌋ else ⌊x⌋ + 1

/-- `purplship.core.utils.number.decimal` on a present value:
`round(float(value), 2)`. -/
def decimal (x : ℚ) : ℚ := (rhe (100 * x) : ℚ) / 100

/-- `decimal` lifted to optional values: `decimal(None)` is `None`. -/
def pydecimal (x : Option ℚ) : Option ℚ := x.map decimal

/-- Python truthiness of an optional float: `None` and `0.0` are falsy. -/
def pyTruthy (x : Option ℚ) : Bool :=
  match x with
  | none => false
  | some v => if v = 0 then false else true

/-- Python `a or b` on optional floats. -/
def pyOr (a b : Option ℚ) : Option ℚ := if pyTruthy a then a else b

/-- Python `a or d` where the fallback is a plain float. -/
def pyOrD (a : Option ℚ) (d : ℚ) : ℚ :=
  match a with
  | none => d
  | some v => if v = 0 then d else v

/-- Python `any(xs)` over a list of optional floats. -/
def pyAnyOpt (xs : List (Option ℚ)) : Bool := xs.any pyTruthy

/-- Python `lst[0]`, raising `IndexError` on an empty list. -/
def pyHead {α : Type} (l : List α) : Except PyErr α :=
  match l with
  | [] => .error .indexError
  | a :: _ => .ok a

/-- Python `next(iter)`, raising `StopIteration` when exhausted. -/
def pyNext {α : Type} (l : List α) : Except PyErr α :=
  match l with
  | [] => .error .stopIteration
  | a :: _ => .ok a

instance {ε α : Type} [DecidableEq ε] [DecidableEq α] : DecidableEq (Except ε α) :=
  fun x y =>
    match x, y with
    | .ok a, .ok b =>
        if h : a = b then isTrue (by rw [h])
        else isFalse (by intro hh; cases hh; exact h rfl)
    | .error a, .error b =>
        if h : a = b then isTrue (by rw [h])
        else isFalse (by intro hh; cases hh; exact h rfl)
    | .ok _, .error _ => isFalse (by intro hh; cases hh)
    | .error _, .ok _ => isFalse (by intro hh; cases hh)

/-- `WeightUnit` enum from `purplship/core/units.py`. -/
inductive WeightUnit where
  | KG
  | LB
  deriving DecidableEq, Repr

/-- `DimensionUnit` enum from `purplship/core/units.py`. -/
inductive DimensionUnit where
  | CM
  | IN
  deriving DecidableEq, Repr

/-- `Dimension`: a scalar plus a dimension unit, both possibly absent. -/
structure Dimension where
  rawValue : Option ℚ
  unit : Option DimensionUnit
  deriving DecidableEq, Repr

/-- `Dimension.CM` accessor, exactly as written in the source:
same unit returns the rounded value, the other unit multiplies by
`0.393701`. -/
def Dimension.CM (d : Dimension) : Option ℚ :=
  match d.unit, d.rawValue with
  | none, _ => none
  | _, none => none
  | some .CM, some v => some (decimal v)
  | some .IN, some v => some (decimal (v * 0.393701))

/-- `Dimension.IN` accessor, exactly as written in the source:
same unit returns the rounded value, the other unit multiplies by
`2.54`. -/
def Dimension.IN (d : Dimension) : Option ℚ :=
  match d.unit, d.rawValue with
  | none, _ => none
  | _, none => none
  | some .IN, some v => some (decimal v)
  | some .CM, some v => some (decimal (v * 2.54))

/-- `Dimension.M` accessor: `decimal(self.CM / 100)`. -/
def Dimension.M (d : Dimension) : Option ℚ :=
  match d.unit, d.rawValue with
  | none, _ => none
  | _, none => none
  | some _, some _ => (d.CM).map (fun c => decimal (c / 100))

/-- `Dimension.value`: dispatches on the unit name
(`self.__getattribute__(str(self._unit.name))`); a `None` unit raises. -/
def Dimension.value (d : Dimension) : Except PyErr (Option ℚ) :=
  match d.unit with
  | none => .error .attributeError
  | some .CM => .ok d.CM
  | some .IN => .ok d.IN

/-- `Weight`: a scalar plus a weight unit, both possibly absent. -/
structure Weight where
  rawValue : Option ℚ
  unit : Option WeightUnit
  deriving DecidableEq, Repr

/-- `Weight.KG` accessor. -/
def Weight.KG (w : Weight) : Option ℚ :=
  match w.unit, w.rawValue with
  | none, _ => none
  | _, none => none
  | some .KG, some v => some (decimal v)
  | some .LB, some v => some (decimal (v * 0.453592))

/-- `Weight.LB` accessor. -/
def Weight.LB (w : Weight) : Option ℚ :=
  match w.unit, w.rawValue with
  | none, _ => none
  | _, none => none
  | some .LB, some v => some (decimal v)
  | some .KG, some v => some (decimal (v * 2.204620823516057))

/-- `Weight.OZ` accessor. -/
def Weight.OZ (w : Weight) : Option ℚ :=
  match w.unit, w.rawValue with
  | none, _ => none
  | _, none => none
  | some .LB, some v => some (decimal (v * 16))
  | some .KG, some v => some (decimal (v * 35.274))

/-- `Weight.value`: dispatches on the unit name; a `None` unit raises. -/
def Weight.value (w : Weight) : Except PyErr (Option ℚ) :=
  match w.unit with
  | none => .error .attributeError
  | some .KG => .ok w.KG
  | some .LB => .ok w.LB

/-- `Volume`: three dimension sides (`_side1`, `_side2`, `_side3`). -/
structure Volume where
  side1 : Dimension
  side2 : Dimension
  side3 : Dimension
  deriving DecidableEq, Repr

/-- `Volume.value`: `if not any([side1.value, side2.value, side3.value]):
return None`, else `decimal(side1.M * side2.M * side3.M)`; multiplying a
`None` side raises `TypeError`. -/
def Volume.value (v : Volume) : Except PyErr (Option ℚ) := do
  let v1 ← v.side1.value
  let v2 ← v.side2.value
  let v3 ← v.side3.value
  if pyAnyOpt [v1, v2, v3] = false then
    return none
  else
    match v.side1.M, v.side2.M, v.side3.M with
    | some a, some b, some c => return some (decimal (a * b * c))
    | _, _, _ => throw .typeError

/-- `Girth`: three dimension sides. -/
structure Girth where
  side1 : Dimension
  side2 : Dimension
  side3 : Dimension
  deriving DecidableEq, Repr

/-- `Girth.value`: collects the three CM conversions, returns `None` when
none of them is truthy, else sorts ascending (sorting a list holding a
`None` beside a number raises `TypeError`) and doubles the sum of the two
smallest. -/
def Girth.value (g : Girth) : Except PyErr (Option ℚ) :=
  if pyAnyOpt [g.side1.CM, g.side2.CM, g.side3.CM] = false then .ok none
  else
    match g.side1.CM, g.side2.CM, g.side3.CM with
    | some a, some b, some c =>
        match List.insertionSort (fun x y => x ≤ y) [a, b, c] with
        | x :: y :: _ => .ok (some (decimal ((x + y) * 2)))
        | _ => .error .typeError
    | _, _, _ => .error .typeError

/-- Modelled from the spec: `purplship.core.models.Parcel` is not under
`src/`; per the spec it is the raw payload input holding "raw physical
attributes, optional preset name, optional explicit units", every field
optional. -/
structure Parcel where
  weight : Option ℚ := none
  width : Option ℚ := none
  height : Option ℚ := none
  length : Option ℚ := none
  weight_unit : Option WeightUnit := none
  dimension_unit : Option DimensionUnit := none
  package_preset : Option String := none
  packaging_type : Option String := none
  deriving DecidableEq, Repr

/-- `PackagePreset` dataclass: fixed template values, with unit defaults
`"LB"` and `"IN"`. -/
structure PackagePreset where
  width : Option ℚ := none
  height : Option ℚ := none
  length : Option ℚ := none
  weight : Option ℚ := none
  volume : Option ℚ := none
  weight_unit : WeightUnit := .LB
  dimension_unit : DimensionUnit := .IN
  packaging_type : Option String := none
  deriving DecidableEq, Repr

/-- `Package`: a parcel plus its (possibly defaulted) preset. -/
structure Package where
  parcel : Parcel
  preset : PackagePreset
  deriving DecidableEq, Repr

/-- `Package.dimension_unit` property: the parcel's declared dimension
unit only when the parcel supplies any raw dimension, else the preset's. -/
def Package.dimension_unit (p : Package) : DimensionUnit :=
  if pyAnyOpt [p.parcel.height, p.parcel.width, p.parcel.length] then
    p.parcel.dimension_unit.getD p.preset.dimension_unit
  else p.preset.dimension_unit

/-- `Package.weight_unit` property: the preset's weight unit when the
parcel has no raw weight, else the parcel's declared unit or the
preset's. -/
def Package.weight_unit (p : Package) : WeightUnit :=
  match p.parcel.weight with
  | none => p.preset.weight_unit
  | some _ => p.parcel.weight_unit.getD p.preset.weight_unit

/-- `Package.weight` property:
`Weight(self.parcel.weight or self.preset.weight, self.weight_unit)`. -/
def Package.weight (p : Package) : Weight :=
  ⟨pyOr p.parcel.weight p.preset.weight, some p.weight_unit⟩

/-- `Package.width` property:
`Dimension(self.preset.width or self.parcel.width, self.dimension_unit)`. -/
def Package.width (p : Package) : Dimension :=
  ⟨pyOr p.preset.width p.parcel.width, some p.dimension_unit⟩

/-- `Package.height` property. -/
def Package.height (p : Package) : Dimension :=
  ⟨pyOr p.preset.height p.parcel.height, some p.dimension_unit⟩

/-- `Package.length` property. -/
def Package.length (p : Package) : Dimension :=
  ⟨pyOr p.preset.length p.parcel.length, some p.dimension_unit⟩

/-- `Package.girth` property: `Girth(self.width, self.length, self.height)`. -/
def Package.girth (p : Package) : Girth := ⟨p.width, p.length, p.height⟩

/-- `Package.volume` property: `Volume(self.width, self.length, self.height)`. -/
def Package.volume (p : Package) : Volume := ⟨p.width, p.length, p.height⟩

/-- The physical attributes a caller may declare as required in
`Packages(..., required=[...])`. -/
inductive PackageField where
  | weight
  | width
  | height
  | length
  deriving DecidableEq, Repr

/-- `getattr(package, field).value` for a required physical attribute. -/
def resolvedValue (p : Package) (f : PackageField) : Except PyErr (Option ℚ) :=
  match f with
  | .weight => p.weight.value
  | .width => p.width.value
  | .height => p.height.value
  | .length => p.length.value

/-- `compute_preset` from `Packages.__init__`: no preset enumeration, or a
parcel preset name not among its members, yields no preset. -/
def computePreset (presets : Option (List (String × PackagePreset)))
    (p : Parcel) : Option PackagePreset :=
  match presets with
  | none => none
  | some table =>
      match p.package_preset with
      | none => none
      | some name => table.lookup name

/-- The `Package` list built by `Packages.__init__`
(`template or PackagePreset()` defaults a missing preset). -/
def mkItems (parcels : List Parcel)
    (presets : Option (List (String × PackagePreset))) : List Package :=
  parcels.map (fun p => ⟨p, (computePreset presets p).getD {}⟩)

/-- The violation keys the required-field loop of `Packages.__init__`
records for the package at index `i`: one `(i, field)` pair — standing for
the dict key `"parcel[i].field"` — per required attribute whose resolved
unit-aware value is null. -/
def violationsAt (items : List Package) (required : List PackageField)
    (i : ℕ) : List (ℕ × PackageField) :=
  match items.get? i with
  | some pkg =>
      required.dedup.filterMap (fun f =>
        if resolvedValue pkg f = .ok none then some (i, f) else none)
  | none => []

/-- All violation keys the required-field loop of `Packages.__init__`
accumulates, over every package index. -/
def violations (parcels : List Parcel)
    (presets : Option (List (String × PackagePreset)))
    (required : List PackageField) : List (ℕ × PackageField) :=
  (List.range (mkItems parcels presets).length).flatMap
    (violationsAt (mkItems parcels presets) required)

/-- `Packages`: the built collection. -/
structure Packages where
  items : List Package
  deriving DecidableEq, Repr

/-- `Packages.__init__`: builds the packages, and when a required list is
given raises `FieldError` carrying every accumulated violation if any
exists. -/
def Packages.ofParcels (parcels : List Parcel)
    (presets : Option (List (String × PackagePreset)))
    (required : Option (List PackageField)) :
    Except (List (ℕ × PackageField)) Packages :=
  match required with
  | none => .ok ⟨mkItems parcels presets⟩
  | some req =>
      if violations parcels presets req = [] then .ok ⟨mkItems parcels presets⟩
      else .error (violations parcels presets req)

/-- `Packages.single`: raises `MultiParcelNotSupportedError` when more than
one package is present, else returns `self._items[0]` (an `IndexError` on
an empty collection). -/
def Packages.single (ps : Packages) : Except PyErr Package :=
  if ps.items.length > 1 then .error .multiParcelNotSupported
  else
    match ps.items with
    | [] => .error .indexError
    | p :: _ => .ok p

/-- The generator filter in `Packages.weight`:
`pkg.weight.value is not None`. -/
def weightResolves (pkg : Package) : Bool :=
  match pkg.weight.value with
  | .ok (some _) => true
  | _ => false

/-- `sum(pkg.weight.LB for pkg in self._items if pkg.weight.value is not
None)`; the `getD 0` is never taken, a package passing the filter always
has a pound conversion. -/
def sumLB (items : List Package) : ℚ :=
  (items.filter weightResolves).foldl
    (fun acc pkg => acc + (pkg.weight.LB.getD 0)) 0

/-- `Packages.weight` property: the pound total of the resolving packages,
passed through `... or None`. -/
def Packages.weight (ps : Packages) : Weight :=
  ⟨if sumLB ps.items = 0 then none else some (sumLB ps.items), some .LB⟩

/-- Python `needle in hay` on strings. -/
def isSubstr (needle hay : String) : Bool := decide (needle.data <:+: hay.data)

/-- Per-carrier settings carrying the carrier identity strings. -/
structure CarrierSettings where
  carrier_name : String
  carrier_id : String
  deriving DecidableEq, Repr

/-- `purplship.core.models.Message`: a unified carrier-reported
error/warning. -/
structure Message where
  carrier_name : String
  carrier_id : String
  code : Option String := none
  message : Option String := none
  deriving DecidableEq, Repr

/-- `purplship.core.models.ChargeDetails`: one named charge line. -/
structure ChargeDetails where
  name : Option String := none
  amount : Option ℚ := none
  currency : Option String := none
  deriving DecidableEq, Repr

/-- `purplship.core.models.RateDetails`: the normalized rate output. -/
structure RateDetails where
  carrier_name : String
  carrier_id : String
  currency : Option String := none
  transit_days : Option ℤ := none
  service : Option String := none
  base_charge : Option ℚ := none
  total_charge : Option ℚ := none
  duties_and_taxes : Option ℚ := none
  discount : Option ℚ := none
  extra_charges : List ChargeDetails := []
  deriving DecidableEq, Repr

/-- One error/warning node found in a carrier response tree. -/
structure ErrorNode where
  code : Option String := none
  message : Option String := none
  deriving DecidableEq, Repr

/-- `QtdShpExChrgType` wire record of the DHL quote response: one extra
charge with a local service name and a charge value. -/
structure DhlExtraCharge where
  LocalServiceTypeName : Option String := none
  ChargeValue : Option ℚ := none
  deriving DecidableEq, Repr

/-- A `DeliveryDate` entry of a DHL quote; `DlvyDateTime` is held as the
already-parsed day number (`to_date` of `purplship.core.utils` is not
under `src/` and is modelled as the identity on parsed dates, `None` for
an absent or unparsable string). -/
structure DhlDeliveryDate where
  DlvyDateTime : Option ℤ := none
  deriving DecidableEq, Repr

/-- `QtdShpType` wire record of the DHL quote response (the fields
`_extract_quote` reads). `PricingDate` is an already-parsed day number,
like `DlvyDateTime`. -/
structure DhlQtdShp where
  ShippingCharge : Option ℚ := none
  WeightCharge : Option ℚ := none
  CurrencyCode : Option String := none
  LocalProductName : Option String := none
  QtdShpExChrg : List DhlExtraCharge := []
  DeliveryDate : List DhlDeliveryDate := []
  PricingDate : Option ℤ := none
  deriving DecidableEq, Repr

/-- A DHL DCT response: the `QtdShp` nodes found anywhere in the tree plus
the error/warning nodes found anywhere in the tree. -/
structure DctResponse where
  QtdShpNodes : List DhlQtdShp := []
  errorNodes : List ErrorNode := []
  deriving DecidableEq, Repr

/-- Modelled from the spec: `purplship.providers.dhl.error.parse_error_response`
is not under `src/`; per the spec, error extraction "walks the full
response tree for error/warning nodes" and maps each to a unified
`Message`. -/
def dhl_parse_error_response (response : DctResponse)
    (settings : CarrierSettings) : List Message :=
  response.errorNodes.map (fun e =>
    { carrier_name := settings.carrier_name, carrier_id := settings.carrier_id,
      code := e.code, message := e.message })

/-- Modelled from the spec: the `Product` enumeration of
`purplship.providers.dhl.units` is not under `src/`; it is modelled as an
association list of `(name, value)` pairs. No claim depends on its
entries, so it is left empty. -/
def dhlProductTable : List (String × String) := []

/-- `next((p.name for p in Product if p.value in qtdshp.LocalProductName),
qtdshp.LocalProductName)`: testing membership in a `None` product name
raises, but only when the generator evaluates the test at all. -/
def dhlServiceName (table : List (String × String)) (localName : Option String) :
    Except PyErr (Option String) :=
  match table with
  | [] => .ok localName
  | _ =>
      match localName with
      | none => .error .typeError
      | some s => .ok (some (((table.find? (fun p => isSubstr p.2 s)).map
          Prod.fst).getD s))

/-- The `reduce` classification in `_extract_quote`: sum the amounts of
the charges whose name holds `key` as a substring; a `None` name raises
`TypeError`. -/
def dctFold (key : String) (charges : List (Option String × ℚ)) :
    Except PyErr ℚ :=
  charges.foldlM (fun d ec =>
    match ec.1 with
    | none => throw .typeError
    | some nm => pure (if isSubstr key nm then d + ec.2 else d)) 0

/-- `_extract_quote` of `dct_quote.py`: `None` for a zero or absent
`ShippingCharge`, else the reconstructed `RateDetails`. -/
def extract_quote (settings : CarrierSettings) (qtdshp : DhlQtdShp) :
    Except PyErr (Option RateDetails) := do
  if qtdshp.ShippingCharge = none ∨ qtdshp.ShippingCharge = some 0 then
    return none
  let ExtraCharges := qtdshp.QtdShpExChrg.map (fun s =>
    (s.LocalServiceTypeName, decimal (pyOrD s.ChargeValue 0)))
  let Discount_ ← dctFold "Discount" ExtraCharges
  let DutiesAndTaxes_ ← dctFold "TAXES PAID" ExtraCharges
  let firstDate ← pyHead qtdshp.DeliveryDate
  let delivery_date := firstDate.DlvyDateTime
  let pricing_date := qtdshp.PricingDate
  let transit := match delivery_date, pricing_date with
    | some d, some p => some (d - p)
    | _, _ => none
  let service_name ← dhlServiceName dhlProductTable qtdshp.LocalProductName
  return some
    { carrier_name := settings.carrier_name
      carrier_id := settings.carrier_id
      currency := qtdshp.CurrencyCode
      transit_days := transit
      service := service_name
      base_charge := pydecimal qtdshp.WeightCharge
      total_charge := pydecimal qtdshp.ShippingCharge
      duties_and_taxes := some (decimal DutiesAndTaxes_)
      discount := some (decimal Discount_)
      extra_charges := qtdshp.QtdShpExChrg.map (fun s =>
        { name := s.LocalServiceTypeName, amount := pydecimal s.ChargeValue,
          currency := qtdshp.CurrencyCode }) }

/-- `parse_dct_response` of `dct_quote.py`: extract every `QtdShp` node,
drop the `None` extractions, and pair the list with the error messages of
the whole tree. -/
def parse_dct_response (response : DctResponse) (settings : CarrierSettings) :
    Except PyErr (List RateDetails × List Message) := do
  let quotes ← response.QtdShpNodes.mapM (extract_quote settings)
  return (quotes.filterMap id, dhl_parse_error_response response settings)

/-- One `Rate` line of the UPS freight rate response: `r.Type.Code`,
`r.Factor.Value` and `r.Factor.UnitOfMeasurement.Code`. -/
structure UpsRate where
  TypeCode : String
  FactorValue : Option ℚ := none
  FactorUnitCode : Option String := none
  deriving DecidableEq, Repr

/-- One `FreightRateResponse` node of the UPS response tree (the fields
`_extract_freight_rate` reads); `CurrencyCodeNodes` are the texts of the
`CurrencyCode` descendants. -/
structure UpsFreightDetail where
  Rate : List UpsRate := []
  ServiceDescription : Option String := none
  TotalShipmentChargeValue : Option ℚ := none
  CurrencyCodeNodes : List String := []
  deriving DecidableEq, Repr

/-- A UPS freight rate response: the `FreightRateResponse` nodes found
anywhere in the tree plus the error/warning nodes of the whole tree. -/
structure UpsResponse where
  FreightRateResponseNodes : List UpsFreightDetail := []
  errorNodes : List ErrorNode := []
  deriving DecidableEq, Repr

/-- Modelled from the spec: `purplship.providers.ups.error.parse_error_response`
is not under `src/`; per the spec it walks the full response tree for
error/warning nodes and maps each to a `Message`. -/
def ups_parse_error_response (response : UpsResponse)
    (settings : CarrierSettings) : List Message :=
  response.errorNodes.map (fun e =>
    { carrier_name := settings.carrier_name, carrier_id := settings.carrier_id,
      code := e.code, message := e.message })

/-- `reduce(lambda r, c: r + c.amount, charges, 0.0)`: adding a `None`
amount raises `TypeError`. -/
def sumAmounts (charges : List ChargeDetails) : Except PyErr ℚ :=
  charges.foldlM (fun r c =>
    match c.amount with
    | none => throw .typeError
    | some a => pure (r + a)) 0

/-- `_extract_freight_rate` of `freight_rate.py`: keeps every record —
the `AFTR_DSCNT` total is emitted even when zero or absent
(`total_charge.Factor.Value or 0.0`). -/
def extract_freight_rate (settings : CarrierSettings)
    (detail : UpsFreightDetail) : Except PyErr RateDetails := do
  let total_charge ← pyHead (detail.Rate.filter
    (fun r => r.TypeCode == "AFTR_DSCNT"))
  let Discounts_ := (detail.Rate.filter (fun r => r.TypeCode == "DSCNT")).map
    (fun r => ({ name := some r.TypeCode, currency := r.FactorUnitCode,
                 amount := pydecimal r.FactorValue } : ChargeDetails))
  let Surcharges_ := (detail.Rate.filter (fun r =>
      !(["DSCNT", "AFTR_DSCNT", "DSCNT_RATE", "LND_GROSS"].contains r.TypeCode))).map
    (fun r => ({ name := some r.TypeCode, currency := r.FactorUnitCode,
                 amount := pydecimal r.FactorValue } : ChargeDetails))
  let extra_charges := Discounts_ ++ Surcharges_
  let currency_ ← pyNext detail.CurrencyCodeNodes
  let dutiesTotal ← sumAmounts Surcharges_
  let discountTotal ← sumAmounts Discounts_
  return {
      carrier_name := settings.carrier_name
      carrier_id := settings.carrier_id
      currency := some currency_
      service := detail.ServiceDescription
      base_charge := pydecimal detail.TotalShipmentChargeValue
      total_charge := some (decimal (pyOrD total_charge.FactorValue 0))
      duties_and_taxes := some (decimal dutiesTotal)
      discount := some (decimal discountTotal)
      extra_charges := extra_charges }

/-- `parse_freight_rate_response` of `freight_rate.py`: one normalized
rate per `FreightRateResponse` node — no zero/absent-total filtering —
paired with the error messages of the whole tree. -/
def parse_freight_rate_response (response : UpsResponse)
    (settings : CarrierSettings) :
    Except PyErr (List RateDetails × List Message) := do
  let rates ← response.FreightRateResponseNodes.mapM
    (extract_freight_rate settings)
  return (rates, ups_parse_error_response response settings)

/-- Canada Post settings: `settings.carrier` and `settings.carrier_name`. -/
structure CpSettings where
  carrier : String
  carrier_name : String
  deriving DecidableEq, Repr

/-- `purplship.core.models.ConfirmationDetails`. -/
structure ConfirmationDetails where
  carrier : String
  carrier_name : String
  success : Bool
  deriving DecidableEq, Repr

/-- A Canada Post cancel-pickup response: the parser only reads the
error/warning nodes; any result records the wire response carries are
kept as opaque strings and never consulted. -/
structure CpResponse where
  resultNodes : List String := []
  errorNodes : List ErrorNode := []
  deriving DecidableEq, Repr

/-- Modelled from the spec: `purplship.carriers.canadapost.error.parse_error_response`
is not under `src/`; per the spec it walks the full response tree for
error/warning nodes and maps each to a `Message`. -/
def cp_parse_error_response (response : CpResponse)
    (settings : CpSettings) : List Message :=
  response.errorNodes.map (fun e =>
    { carrier_name := settings.carrier_name, carrier_id := settings.carrier,
      code := e.code, message := e.message })

/-- `parse_cancel_pickup_response` of `cancel_pickup.py`: a successful
`ConfirmationDetails` only when the error list is empty, else `None`,
always paired with the errors. -/
def parse_cancel_pickup_response (response : CpResponse)
    (settings : CpSettings) : Option ConfirmationDetails × List Message :=
  let errors := cp_parse_error_response response settings
  (if errors.length = 0 then
      some { carrier := settings.carrier,
             carrier_name := settings.carrier_name, success := true }
    else none,
   errors)

/-- A weight in KG, converted to pounds via `.LB`, rebuilt as an LB weight,
converted back via `.KG`. -/
def roundTripKG (v : ℚ) : Option ℚ :=
  Weight.KG ⟨Weight.LB ⟨some v, some .KG⟩, some .LB⟩

/-- A weight in LB, converted to kilograms via `.KG`, rebuilt as a KG
weight, converted back via `.LB`. -/
def roundTripLB (v : ℚ) : Option ℚ :=
  Weight.LB ⟨Weight.KG ⟨some v, some .LB⟩, some .KG⟩

/-- A parcel carrying its own raw weight of 1 LB. -/
def parcelWithWeight : Parcel := { weight := some 1, weight_unit := some .LB }

/-- A preset fixing a weight of 2. -/
def presetWithWeight : PackagePreset := { weight := some 2 }

/-- DHL settings for the concrete scenarios. -/
def dhlSettingsEx : CarrierSettings := ⟨"dhl", "dhl-1"⟩

/-- A well-formed DHL quote node with a non-zero shipping charge. -/
def qtdshpEx : DhlQtdShp :=
  { ShippingCharge := some 10, WeightCharge := some 8,
    CurrencyCode := some "USD", LocalProductName := some "EXPRESS WORLDWIDE",
    QtdShpExChrg := [], DeliveryDate := [⟨some 100⟩], PricingDate := some 98 }

/-- A DHL response holding one valid quote node and one error node. -/
def dctResponseEx : DctResponse :=
  { QtdShpNodes := [qtdshpEx],
    errorNodes := [{ code := some "100", message := some "condition" }] }

/-- Canada Post settings for the concrete scenarios. -/
def cpSettingsEx : CpSettings := ⟨"canadapost", "CanadaPost"⟩

/-- A Canada Post cancel-pickup response carrying one (ignored) result
record and one error node. -/
def cpResponseEx : CpResponse :=
  { resultNodes := ["pickup cancelled"],
    errorNodes := [{ code := some "8516", message := some "partial" }] }

/-- UPS settings for the concrete scenarios. -/
def upsSettingsEx : CarrierSettings := ⟨"ups", "ups-1"⟩

/-- A UPS freight detail whose `AFTR_DSCNT` (total after discount) rate
line is zero. -/
def upsDetailEx : UpsFreightDetail :=
  { Rate := [{ TypeCode := "AFTR_DSCNT", FactorValue := some 0,
               FactorUnitCode := some "USD" }],
    ServiceDescription := some "UPS Freight LTL",
    TotalShipmentChargeValue := some 100,
    CurrencyCodeNodes := ["USD"] }

/-- A UPS response holding one freight detail with a zero total charge. -/
def upsResponseEx : UpsResponse :=
  { FreightRateResponseNodes := [upsDetailEx], errorNodes := [] }

/-- The normalized rate the UPS parser emits for `upsDetailEx`: a
zero-priced option. -/
def upsZeroRate : RateDetails :=
  { carrier_name := "ups", carrier_id := "ups-1", currency := some "USD",
    service := some "UPS Freight LTL", base_charge := some (decimal 100),
    total_charge := some (decimal 0), duties_and_taxes := some (decimal 0),
    discount := some (decimal 0), extra_charges := [] }

/-- A parcel whose raw weight rounds to zero pounds. -/
def parcelTiny : Parcel := { weight := some 0.001, weight_unit := some .LB }

/-- A parcel of 2.5 LB. -/
def parcelLB25 : Parcel := { weight := some 2.5, weight_unit := some .LB }

/-- A parcel of 1 KG. -/
def parcelKG1 : Parcel := { weight := some 1, weight_unit := some .KG }

/-- A CM dimension with no value. -/
def dimAbsent : Dimension := ⟨none, some .CM⟩

/-- A CM dimension of 5. -/
def dimFive : Dimension := ⟨some 5, some .CM⟩

lemma abs_rhe_sub (x : ℚ) : |(rhe x : ℚ) - x| ≤ 1/2 := by
  have h1 : (⌊x⌋ : ℚ) ≤ x := Int.floor_le x
  have h2 : x < ⌊x⌋ + 1 := Int.lt_floor_add_one x
  unfold rhe
  split_ifs with ha hb hc <;> push_cast <;> rw [abs_le] <;>
    constructor <;> linarith

lemma abs_decimal_sub (x : ℚ) : |decimal x - x| ≤ 1/200 := by
  have h := abs_rhe_sub (100 * x)
  unfold decimal
  have he : (rhe (100 * x) : ℚ) / 100 - x = ((rhe (100 * x) : ℚ) - 100 * x) / 100 := by
    ring
  rw [he, abs_div]
  rw [show |(100 : ℚ)| = 100 by norm_num]
  linarith

lemma roundtrip_bound (a b v : ℚ) (hb : 0 < b) (hab : a * b ≤ 1) :
    |decimal (decimal (v * a) * b) - v| ≤ 1/200 + b/200 + |v| * (1 - a * b) := by
  have h1 : |decimal (v * a) - v * a| ≤ 1/200 := abs_decimal_sub (v * a)
  have h2 : |decimal (decimal (v * a) * b) - decimal (v * a) * b| ≤ 1/200 :=
    abs_decimal_sub (decimal (v * a) * b)
  have h3 : |decimal (v * a) * b - (v * a) * b| ≤ b/200 := by
    rw [show decimal (v * a) * b - (v * a) * b = (decimal (v * a) - v * a) * b by
      ring]
    rw [abs_mul, abs_of_pos hb]
    calc |decimal (v * a) - v * a| * b ≤ (1/200) * b :=
          mul_le_mul_of_nonneg_right h1 (le_of_lt hb)
      _ = b/200 := by ring
  have h4 : |(v * a) * b - v| ≤ |v| * (1 - a * b) := by
    rw [show (v * a) * b - v = v * (a * b - 1) by ring, abs_mul]
    rw [abs_of_nonpos (by linarith : a * b - 1 ≤ 0)]
    apply mul_le_mul_of_nonneg_left _ (abs_nonneg v)
    linarith
  calc |decimal (decimal (v * a) * b) - v|
      ≤ |decimal (decimal (v * a) * b) - decimal (v * a) * b|
        + |decimal (v * a) * b - v| := abs_sub_le _ _ _
    _ ≤ 1/200 + (|decimal (v * a) * b - (v * a) * b| + |(v * a) * b - v|) := by
        have := abs_sub_le (decimal (v * a) * b) ((v * a) * b) v
        linarith
    _ ≤ 1/200 + b/200 + |v| * (1 - a * b) := by linarith

/-- C1: evaluating the code at the failing input: `Dimension(1, IN).CM`
returns `0.39` — the source multiplies by `0.393701`, the CM→IN factor —
while the claim (per the constant 1 IN = 2.54 CM) requires `2.54`; dually
`Dimension(1, CM).IN` returns `2.54` where `0.39` is required. The two
cross-unit conversion factors are swapped. The same-unit accessor does
return the value rounded to 2 decimals. -/
theorem dimension_conversion_factors_swapped :
    Dimension.CM ⟨some 1, some .IN⟩ = some 0.39
    ∧ Dimension.IN ⟨some 1, some .CM⟩ = some 2.54
    ∧ Dimension.IN ⟨some 1.005, some .IN⟩ = some (decimal 1.005) := by
  refine ⟨?_, ?_, ?_⟩ <;> norm_num [Dimension.CM, Dimension.IN, decimal, rhe]

/-- C6 counterexample: for the KG weight `1000000`, the round trip through
LB and back lands on `999998.37`, missing the original value by `1.63` —
far outside any 2-decimal rounding tolerance such as `0.01`. -/
theorem weight_roundtrip_tolerance_counterexample :
    roundTripKG 1000000 = some 999998.37
    ∧ ¬ |(999998.37 : ℚ) - 1000000| ≤ 1/100 := by
  constructor
  · norm_num [roundTripKG, Weight.KG, Weight.LB, decimal, rhe]
  · rw [abs_le]
    norm_num

/-- C6 amended: the KG↔LB round trip through the conversion accessors is
always defined, and recovers `v` only within the 2-decimal rounding
tolerance amplified by the return conversion factor, plus a drift
proportional to `|v|` because the two conversion constants are not exact
inverses (`0.453592 × 2.204620823516057 < 1`); it is not within a fixed
`0.01` of `v` for every `v`. -/
theorem weight_unit_roundtrip_within_drift : ∀ v : ℚ,
    roundTripKG v = some (decimal (decimal (v * 2.204620823516057) * 0.453592))
    ∧ roundTripLB v = some (decimal (decimal (v * 0.453592) * 2.204620823516057))
    ∧ |decimal (decimal (v * 2.204620823516057) * 0.453592) - v|
        ≤ 1/200 + 0.453592/200 + |v| * (1 - 2.204620823516057 * 0.453592)
    ∧ |decimal (decimal (v * 0.453592) * 2.204620823516057) - v|
        ≤ 1/200 + 2.204620823516057/200 + |v| * (1 - 0.453592 * 2.204620823516057) := by
  intro v
  refine ⟨rfl, rfl, ?_, ?_⟩
  · exact roundtrip_bound 2.204620823516057 0.453592 v (by norm_num) (by norm_num)
  · exact roundtrip_bound 0.453592 2.204620823516057 v (by norm_num) (by norm_num)

/-- C2 counterexample: with a parcel weight of 1 and a preset weight of 2,
the effective package weight is the parcel's 1, not the preset's 2 — the
weight attribute does not prefer the preset's fixed value. -/
theorem package_weight_prefers_parcel_counterexample :
    (Package.weight ⟨parcelWithWeight, presetWithWeight⟩).rawValue = some 1
    ∧ presetWithWeight.weight = some 2
    ∧ (some (1 : ℚ) : Option ℚ) ≠ some 2 := by
  refine ⟨rfl, rfl, ?_⟩
  intro h
  exact absurd (Option.some_inj.mp h) (by norm_num)

/-- C2 amended: the dimension attributes width, height and length prefer
the preset's truthy (non-null, non-zero) fixed value and fall back to the
parcel's raw value, but the weight attribute has the opposite precedence:
it prefers the parcel's truthy raw value and falls back to the preset's
fixed value. -/
theorem package_attribute_precedence : ∀ (p : Parcel) (pr : PackagePreset),
    (Package.width ⟨p, pr⟩).rawValue
        = (if pyTruthy pr.width then pr.width else p.width)
    ∧ (Package.height ⟨p, pr⟩).rawValue
        = (if pyTruthy pr.height then pr.height else p.height)
    ∧ (Package.length ⟨p, pr⟩).rawValue
        = (if pyTruthy pr.length then pr.length else p.length)
    ∧ (Package.weight ⟨p, pr⟩).rawValue
        = (if pyTruthy p.weight then p.weight else pr.weight) := by
  intro p pr
  exact ⟨rfl, rfl, rfl, rfl⟩

/-- C3: membership in the accumulated violation list is exactly "package
`i` exists and its required attribute `f` resolves to a null unit-aware
value"; the list never repeats an entry; construction returns the packages
when no violation exists and otherwise fails with the full violation list;
and two parcels lacking weight both raw and preset produce violations
naming both indices 0 and 1. -/
lemma violationsAt_none {items : List Package} {required : List PackageField}
    {i : ℕ} (h : items.get? i = none) : violationsAt items required i = [] := by
  unfold violationsAt
  rw [h]

lemma violationsAt_some {items : List Package} {required : List PackageField}
    {i : ℕ} {pkg : Package} (h : items.get? i = some pkg) :
    violationsAt items required i =
      required.dedup.filterMap (fun f =>
        if resolvedValue pkg f = .ok none then some (i, f) else none) := by
  unfold violationsAt
  rw [h]

lemma mem_violationsAt {items : List Package} {required : List PackageField}
    {i : ℕ} {x : ℕ × PackageField} :
    x ∈ violationsAt items required i ↔
      ∃ pkg, items.get? i = some pkg ∧ x.1 = i ∧ x.2 ∈ required
        ∧ resolvedValue pkg x.2 = .ok none := by
  cases hget : items.get? i with
  | none =>
      rw [violationsAt_none hget]
      simp [hget]
  | some pkg =>
      rw [violationsAt_some hget]
      simp only [List.mem_filterMap]
      constructor
      · rintro ⟨f, hf, hcond⟩
        by_cases hres : resolvedValue pkg f = .ok none
        · rw [if_pos hres] at hcond
          obtain rfl : (i, f) = x := Option.some_inj.mp hcond
          exact ⟨pkg, rfl, rfl, List.mem_dedup.mp hf, hres⟩
        · rw [if_neg hres] at hcond
          exact absurd hcond (by simp)
      · rintro ⟨pkg', hpkg, hx1, hx2, hres⟩
        obtain rfl : pkg = pkg' := Option.some_inj.mp hpkg
        refine ⟨x.2, List.mem_dedup.mpr hx2, ?_⟩
        rw [if_pos hres, ← hx1]

lemma violationsAt_fst {items : List Package} {required : List PackageField}
    {i : ℕ} {x : ℕ × PackageField} (hx : x ∈ violationsAt items required i) :
    x.1 = i :=
  (mem_violationsAt.mp hx).choose_spec.2.1

/-- C3: membership in the accumulated violation list is exactly "package
`i` exists and its required attribute `f` resolves to a null unit-aware
value"; the list never repeats an entry; construction returns the packages
when no violation exists and otherwise fails with the full violation list;
and two parcels lacking weight both raw and preset produce violations
naming both indices 0 and 1. -/
theorem packages_required_validation :
    (∀ parcels presets required i f,
      ((i, f) ∈ violations parcels presets required ↔
        ∃ pkg, (mkItems parcels presets).get? i = some pkg
          ∧ f ∈ required ∧ resolvedValue pkg f = .ok none))
    ∧ (∀ parcels presets required,
        (violations parcels presets required).Nodup)
    ∧ (∀ parcels presets required,
        Packages.ofParcels parcels presets (some required) =
          if violations parcels presets required = []
          then .ok ⟨mkItems parcels presets⟩
          else .error (violations parcels presets required))
    ∧ Packages.ofParcels [{}, {}] none (some [.weight]) =
        .error [(0, .weight), (1, .weight)] := by
  refine ⟨?_, ?_, ?_, ?_⟩
  · intro parcels presets required i f
    constructor
    · intro hmem
      simp only [violations, List.mem_flatMap, List.mem_range] at hmem
      obtain ⟨j, _, hin⟩ := hmem
      obtain ⟨pkg, hget, hx1, hx2, hres⟩ := mem_violationsAt.mp hin
      obtain rfl : j = i := hx1.symm
      exact ⟨pkg, hget, hx2, hres⟩
    · rintro ⟨pkg, hget, hf, hres⟩
      have hi : i < (mkItems parcels presets).length := by
        by_contra hle
        rw [List.get?_eq_none.mpr (Nat.le_of_not_lt hle)] at hget
        exact Option.noConfusion hget
      simp only [violations, List.mem_flatMap, List.mem_range]
      exact ⟨i, hi, mem_violationsAt.mpr ⟨pkg, hget, rfl, hf, hres⟩⟩
  · intro parcels presets required
    unfold violations
    rw [List.nodup_flatMap]
    constructor
    · intro j _
      cases hget : (mkItems parcels presets).get? j with
      | none => rw [violationsAt_none hget]; exact List.nodup_nil
      | some pkg =>
          rw [violationsAt_some hget]
          apply List.Nodup.filterMap ?_ (List.nodup_dedup required)
          intro a a' b hb hb'
          by_cases h1 : resolvedValue pkg a = .ok none <;>
            by_cases h2 : resolvedValue pkg a' = .ok none <;>
            simp [h1, h2] at hb hb'
          have h3 : (j, a) = (j, a') := hb.trans hb'.symm
          injection h3 with h4 h5
    · apply List.Pairwise.imp ?_ (List.pairwise_lt_range _)
      intro j k hjk x hxj hxk
      rw [← violationsAt_fst hxj] at hjk
      rw [← violationsAt_fst hxk] at hjk
      exact lt_irrefl _ hjk
  · intro parcels presets required
    rfl
  · decide

/-- C4 counterexample: the Canada Post cancel-pickup parser, given a
response containing one valid result record and one error node, returns a
null confirmation together with a non-empty message list — not a non-null
normalized result beside the messages as the claim requires of every
parser. -/
theorem cancel_pickup_null_result_counterexample :
    parse_cancel_pickup_response cpResponseEx cpSettingsEx =
      (none,
       [{ carrier_name := "CanadaPost", carrier_id := "canadapost",
          code := some "8516", message := some "partial" }]) := by
  decide

/-- C4 amended: carrier messages are always collected and returned. For
the DHL rate parser they sit beside the surviving results — one valid
quote node plus one error node parse to exactly one rate and one message.
For the Canada Post cancel-pickup parser the message list is likewise
always returned, but the confirmation is non-null exactly when no error
message is present, since its success is defined as the absence of
errors. -/
theorem response_messages_beside_results :
    ((parse_dct_response dctResponseEx dhlSettingsEx).map
        (fun r => (r.1.length, r.2.length)) = .ok (1, 1))
    ∧ (∀ (resp : CpResponse) (settings : CpSettings),
        (parse_cancel_pickup_response resp settings).2
            = cp_parse_error_response resp settings
        ∧ ((parse_cancel_pickup_response resp settings).1.isSome
            ↔ cp_parse_error_response resp settings = [])) := by
  constructor
  · decide
  · intro resp settings
    constructor
    · rfl
    · unfold parse_cancel_pickup_response
      rcases h : cp_parse_error_response resp settings with _ | ⟨m, ms⟩ <;>
        simp [h]

/-- C5 counterexample: the UPS freight rate parser emits a rate record
whose total charge is zero instead of excluding it from the normalized
list. -/
theorem ups_zero_total_emitted_counterexample :
    parse_freight_rate_response upsResponseEx upsSettingsEx =
      .ok ([upsZeroRate], [])
    ∧ upsZeroRate.total_charge = some 0 := by
  constructor
  · rfl
  · show some (decimal 0) = some 0
    norm_num [decimal, rhe]

/-- C5 amended: the DHL quote extractor silently discards a quote node
whose shipping charge is zero or absent, but the UPS freight parser keeps
every record — a detail with a zero `AFTR_DSCNT` rate line is emitted as a
zero-priced option. -/
theorem zero_charge_quote_handling :
    (∀ (qtdshp : DhlQtdShp) (settings : CarrierSettings),
      (qtdshp.ShippingCharge = none ∨ qtdshp.ShippingCharge = some 0) →
      extract_quote settings qtdshp = .ok none)
    ∧ parse_freight_rate_response upsResponseEx upsSettingsEx =
        .ok ([upsZeroRate], []) := by
  constructor
  · intro qtdshp settings h
    unfold extract_quote
    rw [if_pos h]
    rfl
  · rfl

/-- C5 witness: the DHL extractor applied to a concrete zero-charge node. -/
theorem zero_charge_quote_handling_witness :
    extract_quote dhlSettingsEx { ShippingCharge := some 0 } = .ok none :=
  zero_charge_quote_handling.1 { ShippingCharge := some 0 } dhlSettingsEx
    (Or.inr rfl)

/-- C7 counterexample: a single parcel of 0.001 LB has a resolving weight
(its unit-aware value is 0, not null) whose pound conversion is 0, so the
claim demands an aggregate value of 0 — but `sum(...) or None` turns the
zero sum into a null aggregate. -/
theorem packages_weight_zero_sum_counterexample :
    weightResolves ⟨parcelTiny, {}⟩ = true
    ∧ (Package.weight ⟨parcelTiny, {}⟩).LB = some 0
    ∧ (Packages.weight ⟨mkItems [parcelTiny] none⟩).rawValue = none := by
  have h0 : (0.001 : ℚ) ≠ 0 := by norm_num
  have hw : Package.weight ⟨parcelTiny, {}⟩ = ⟨some 0.001, some .LB⟩ := by
    simp [Package.weight, Package.weight_unit, parcelTiny, pyOr, pyTruthy, h0]
  have hlb : (Package.weight ⟨parcelTiny, {}⟩).LB = some 0 := by
    rw [hw]
    show some (decimal 0.001) = some 0
    norm_num [decimal, rhe]
  have hres : weightResolves ⟨parcelTiny, {}⟩ = true := by
    rw [weightResolves, Weight.value, hw]
    show (match Weight.LB ⟨some 0.001, some .LB⟩ with
      | some _ => true | none => false) = true
    norm_num [Weight.LB]
  refine ⟨hres, hlb, ?_⟩
  have hs : sumLB (mkItems [parcelTiny] none) = 0 := by
    have hitems : mkItems [parcelTiny] none = [⟨parcelTiny, {}⟩] := rfl
    rw [hitems, sumLB]
    rw [List.filter_cons_of_pos (by rw [hres])]
    rw [List.filter_nil]
    rw [List.foldl_cons, List.foldl_nil, hlb]
    simp
  simp [Packages.weight, hs]

/-- C7 amended: the aggregate is a pound `Weight` whose raw value is the
pound sum over exactly the packages whose unit-aware weight value is
non-null — except that a zero sum (in particular when no package's weight
resolves) is turned into null by `... or None`; for parcels of 2.5 LB and
1 KG the aggregate `.LB` is 4.70. -/
theorem packages_weight_aggregation :
    (∀ items : List Package,
        Packages.weight ⟨items⟩ =
          ⟨if sumLB items = 0 then none else some (sumLB items), some .LB⟩)
    ∧ (∀ items : List Package,
        (∀ pkg ∈ items, weightResolves pkg = false) →
        (Packages.weight ⟨items⟩).rawValue = none)
    ∧ Weight.LB (Packages.weight ⟨mkItems [parcelLB25, parcelKG1] none⟩)
        = some 4.7 := by
  refine ⟨fun items => rfl, ?_, ?_⟩
  · intro items h
    have hfil : items.filter weightResolves = [] := by
      rw [List.filter_eq_nil_iff]
      intro pkg hmem
      rw [h pkg hmem]
      simp
    have hs : sumLB items = 0 := by rw [sumLB, hfil, List.foldl_nil]
    simp [Packages.weight, hs]
  · have h25 : (2.5 : ℚ) ≠ 0 := by norm_num
    have h1 : (1 : ℚ) ≠ 0 := by norm_num
    have hw1 : Package.weight ⟨parcelLB25, {}⟩ = ⟨some 2.5, some .LB⟩ := by
      simp [Package.weight, Package.weight_unit, parcelLB25, pyOr, pyTruthy, h25]
    have hw2 : Package.weight ⟨parcelKG1, {}⟩ = ⟨some 1, some .KG⟩ := by
      simp [Package.weight, Package.weight_unit, parcelKG1, pyOr, pyTruthy, h1]
    have hr1 : weightResolves ⟨parcelLB25, {}⟩ = true := by
      rw [weightResolves, Weight.value, hw1]
      show (match Weight.LB ⟨some 2.5, some .LB⟩ with
        | some _ => true | none => false) = true
      norm_num [Weight.LB]
    have hr2 : weightResolves ⟨parcelKG1, {}⟩ = true := by
      rw [weightResolves, Weight.value, hw2]
      rfl
    have hlb1 : (Package.weight ⟨parcelLB25, {}⟩).LB = some 2.5 := by
      rw [hw1]
      show some (decimal 2.5) = some 2.5
      norm_num [decimal, rhe]
    have hlb2 : (Package.weight ⟨parcelKG1, {}⟩).LB = some 2.2 := by
      rw [hw2]
      show some (decimal (1 * 2.204620823516057)) = some 2.2
      norm_num [decimal, rhe]
    have hs : sumLB (mkItems [parcelLB25, parcelKG1] none) = 4.7 := by
      have hitems : mkItems [parcelLB25, parcelKG1] none
          = [⟨parcelLB25, {}⟩, ⟨parcelKG1, {}⟩] := rfl
      rw [hitems, sumLB]
      rw [List.filter_cons_of_pos (by rw [hr1]),
        List.filter_cons_of_pos (by rw [hr2]), List.filter_nil]
      rw [List.foldl_cons, List.foldl_cons, List.foldl_nil, hlb1, hlb2]
      norm_num
    have hval : Packages.weight ⟨mkItems [parcelLB25, parcelKG1] none⟩
        = ⟨some 4.7, some .LB⟩ := by
      rw [show Packages.weight ⟨mkItems [parcelLB25, parcelKG1] none⟩
        = ⟨if sumLB (mkItems [parcelLB25, parcelKG1] none) = 0 then none
            else some (sumLB (mkItems [parcelLB25, parcelKG1] none)),
           some .LB⟩ from rfl, hs]
      norm_num
    rw [hval]
    show some (decimal 4.7) = some 4.7
    norm_num [decimal, rhe]

/-- C7 witness: a collection whose sole package has no resolvable weight
aggregates to a null value. -/
theorem packages_weight_aggregation_witness :
    (Packages.weight ⟨[⟨{}, {}⟩]⟩).rawValue = none :=
  packages_weight_aggregation.2.1 [⟨{}, {}⟩]
    (by intro pkg hmem; rw [List.mem_singleton] at hmem; subst hmem; rfl)

lemma Volume.value_eq (w : Volume) (v1 v2 v3 : Option ℚ)
    (h1 : w.side1.value = .ok v1) (h2 : w.side2.value = .ok v2)
    (h3 : w.side3.value = .ok v3) :
    Volume.value w =
      if pyAnyOpt [v1, v2, v3] = false then .ok none
      else
        match w.side1.M, w.side2.M, w.side3.M with
        | some a, some b, some c => .ok (some (decimal (a * b * c)))
        | _, _, _ => .error .typeError := by
  unfold Volume.value
  rw [h1, h2, h3]
  rfl

/-- C8 counterexample: a volume whose first side has no value while the
other two are 5 CM raises `TypeError` (the meter conversions are
multiplied with a `None` among them) instead of returning the null the
claim requires for any null side. -/
theorem volume_partial_absence_counterexample :
    Volume.value ⟨dimAbsent, dimFive, dimFive⟩ = .error .typeError
    ∧ (Except.error .typeError : Except PyErr (Option ℚ)) ≠ .ok none := by
  constructor
  · rw [Volume.value_eq ⟨dimAbsent, dimFive, dimFive⟩ none
      (some (decimal 5)) (some (decimal 5)) rfl rfl rfl]
    rw [if_neg (by norm_num [pyAnyOpt, pyTruthy, decimal, rhe])]
    rfl
  · decide

/-- C8 amended: when every side's unit-aware value is falsy (null or
zero), `Volume.value` is null; when all three sides have meter
conversions and some value is truthy, it is the rounded product of the
meters; but when a side's value is null while another is truthy, it
raises `TypeError` — a partially absent side set is not returned as
null. -/
theorem volume_value_absence_behavior :
    ∀ (w : Volume) (v1 v2 v3 : Option ℚ),
      w.side1.value = .ok v1 → w.side2.value = .ok v2 →
      w.side3.value = .ok v3 →
      (pyAnyOpt [v1, v2, v3] = false → Volume.value w = .ok none)
      ∧ (∀ a b c, w.side1.M = some a → w.side2.M = some b →
          w.side3.M = some c → pyAnyOpt [v1, v2, v3] = true →
          Volume.value w = .ok (some (decimal (a * b * c))))
      ∧ ((w.side1.M = none ∨ w.side2.M = none ∨ w.side3.M = none) →
          pyAnyOpt [v1, v2, v3] = true →
          Volume.value w = .error .typeError) := by
  intro w v1 v2 v3 h1 h2 h3
  refine ⟨?_, ?_, ?_⟩
  · intro hfalse
    rw [Volume.value_eq w v1 v2 v3 h1 h2 h3, if_pos hfalse]
  · intro a b c ha hb hc htrue
    rw [Volume.value_eq w v1 v2 v3 h1 h2 h3,
      if_neg (by rw [htrue]; simp), ha, hb, hc]
  · intro hnull htrue
    rw [Volume.value_eq w v1 v2 v3 h1 h2 h3,
      if_neg (by rw [htrue]; simp)]
    rcases hm1 : w.side1.M with _ | a <;>
      rcases hm2 : w.side2.M with _ | b <;>
        rcases hm3 : w.side3.M with _ | c <;>
      first
        | rfl
        | (exfalso; rcases hnull with h | h | h <;> simp_all)

/-- C8 witness: an all-absent volume is null; a volume mixing an absent
side with truthy sides raises. -/
theorem volume_value_absence_behavior_witness :
    Volume.value ⟨dimAbsent, dimAbsent, dimAbsent⟩ = .ok none
    ∧ Volume.value ⟨dimFive, dimFive, dimAbsent⟩ = .error .typeError :=
  ⟨(volume_value_absence_behavior ⟨dimAbsent, dimAbsent, dimAbsent⟩
      none none none rfl rfl rfl).1 rfl,
   (volume_value_absence_behavior ⟨dimFive, dimFive, dimAbsent⟩
      (some (decimal 5)) (some (decimal 5)) none rfl rfl rfl).2.2
     (Or.inr (Or.inr rfl))
     (by norm_num [pyAnyOpt, pyTruthy, decimal, rhe])⟩

/-- C9 counterexample: `.single` on an empty collection does not succeed
with a package — it raises `IndexError` (`self._items[0]` on an empty
list), though the claim's "otherwise" covers every collection of at most
one package. -/
theorem packages_single_empty_counterexample :
    Packages.single ⟨[]⟩ = .error .indexError
    ∧ (Packages.single ⟨[]⟩).toOption = none := ⟨rfl, rfl⟩

/-- C9 amended: `.single` fails with the dedicated
multi-parcel-not-supported error iff more than one package is present,
succeeds returning the unique package iff exactly one is present, and
raises `IndexError` iff the collection is empty. -/
theorem packages_single_characterization : ∀ (ps : Packages),
    (Packages.single ps = .error .multiParcelNotSupported
      ↔ 1 < ps.items.length)
    ∧ (Packages.single ps = .error .indexError ↔ ps.items = [])
    ∧ (∀ p, Packages.single ps = .ok p ↔ ps.items = [p]) := by
  rintro ⟨items⟩
  match items with
  | [] =>
      refine ⟨?_, ?_, ?_⟩ <;> simp [Packages.single]
  | [a] =>
      refine ⟨?_, ?_, ?_⟩ <;> simp [Packages.single]
  | a :: b :: t =>
      have hlen : 1 < (a :: b :: t).length := by
        simp [List.length_cons]
      have hs : Packages.single ⟨a :: b :: t⟩
          = .error .multiParcelNotSupported := by
        unfold Packages.single
        rw [if_pos hlen]
      refine ⟨?_, ?_, ?_⟩ <;> simp [hs, hlen]

/-- C10: `Girth.value` returns null only when all three CM-converted
sides are falsy, and raises `TypeError` whenever some side's CM
conversion is null while the side list still holds a truthy entry —
partial absence is not returned as null. -/
theorem girth_value_partial_absence : ∀ (g : Girth),
    (Girth.value g = .ok none →
      pyAnyOpt [g.side1.CM, g.side2.CM, g.side3.CM] = false)
    ∧ (((g.side1.CM = none ∨ g.side2.CM = none ∨ g.side3.CM = none)
        ∧ pyAnyOpt [g.side1.CM, g.side2.CM, g.side3.CM] = true) →
      Girth.value g = .error .typeError) := by
  intro g
  constructor
  · intro h
    by_contra hc
    unfold Girth.value at h
    rw [if_neg hc] at h
    split at h
    · split at h <;> simp at h
    · simp at h
  · rintro ⟨hnull, htrue⟩
    unfold Girth.value
    rw [if_neg (by rw [htrue]; simp)]
    rcases hm1 : g.side1.CM with _ | a <;>
      rcases hm2 : g.side2.CM with _ | b <;>
        rcases hm3 : g.side3.CM with _ | c <;>
      first
        | rfl
        | (exfalso; rcases hnull with h | h | h <;> simp_all)

/-- C10 witness: three absent sides give a null girth value (so all CM
conversions are falsy); an absent side beside truthy 5 CM sides raises. -/
theorem girth_value_partial_absence_witness :
    pyAnyOpt [Dimension.CM dimAbsent, Dimension.CM dimAbsent,
      Dimension.CM dimAbsent] = false
    ∧ Girth.value ⟨dimAbsent, dimFive, dimFive⟩ = .error .typeError :=
  ⟨(girth_value_partial_absence ⟨dimAbsent, dimAbsent, dimAbsent⟩).1 rfl,
   (girth_value_partial_absence ⟨dimAbsent, dimFive, dimFive⟩).2
     ⟨Or.inl rfl,
      by norm_num [pyAnyOpt, pyTruthy, dimAbsent, dimFive, Dimension.CM,
        decimal, rhe]⟩⟩
